import Mathlib

/-!
Shallow embedding of the Game of Life scripts in the `gol` repository.

Grids are modelled as total functions `Nat → Nat → Bool` together with
explicit dimensions; every script indexes the grid modulo the dimensions
(Python `%`, which for a positive divisor agrees with `Int.emod`), so a
function representation is faithful for the toroidal update kernels.
-/

/-- Python toroidal index: `i % n` on Python ints (result in `[0, n)` for
`n > 0`), returned as a `Nat` grid index. -/
def idx (n : Nat) (i : Int) : Nat := (i % (n : Int)).toNat

/-- Neighbor count of cell `(i, j)` exactly as written in the double-loop
scripts (`gol_v0.py`, `growing-heart.py`, `heart_v4.py`): the sum of the
eight grid entries at `(i±1 mod linhas, j±1 mod colunas)`, in source order. -/
def neighborCount (linhas colunas : Nat) (grid : Nat → Nat → Bool) (i j : Nat) : Nat :=
  (grid (idx linhas ((i : Int) - 1)) (idx colunas ((j : Int) - 1))).toNat +
  (grid (idx linhas ((i : Int) - 1)) (idx colunas (j : Int))).toNat +
  (grid (idx linhas ((i : Int) - 1)) (idx colunas ((j : Int) + 1))).toNat +
  (grid (idx linhas (i : Int)) (idx colunas ((j : Int) - 1))).toNat +
  (grid (idx linhas (i : Int)) (idx colunas ((j : Int) + 1))).toNat +
  (grid (idx linhas ((i : Int) + 1)) (idx colunas ((j : Int) - 1))).toNat +
  (grid (idx linhas ((i : Int) + 1)) (idx colunas (j : Int))).toNat +
  (grid (idx linhas ((i : Int) + 1)) (idx colunas ((j : Int) + 1))).toNat

/-- The 3×3 convolution kernel `[[1,1,1],[1,0,1],[1,1,1]]` used by
`gol.py` and `growingheart.py`. -/
def kernel (a b : Nat) : Nat := if a = 1 ∧ b = 1 then 0 else 1

/-- Entry `(i, j)` of `scipy.signal.convolve2d(grid, kernel, mode="same",
boundary="wrap")`: the centered 2-D convolution of the grid with the 3×3
kernel, indices wrapping modulo the grid dimensions. -/
def convolve2dWrap (rows columns : Nat) (grid : Nat → Nat → Bool) (i j : Nat) : Nat :=
  Finset.sum (Finset.range 3) fun a =>
    Finset.sum (Finset.range 3) fun b =>
      kernel a b *
        (grid (idx rows ((i : Int) + 1 - (a : Int))) (idx columns ((j : Int) + 1 - (b : Int)))).toNat

theorem convolve2dWrap_eq_neighborCount (rows columns : Nat) (grid : Nat → Nat → Bool)
    (i j : Nat) :
    convolve2dWrap rows columns grid i j = neighborCount rows columns grid i j := by
  unfold convolve2dWrap neighborCount kernel
  simp [Finset.sum_range_succ]
  ring_nf

/-- The update of `past_versions/gol_v0.py`: hard-coded classic Life rules,
computed from a snapshot copy of the grid (`new_grid = self.grid.copy()`). -/
def GolV0.update (linhas colunas : Nat) (grid : Nat → Nat → Bool) : Nat → Nat → Bool :=
  fun i j =>
    let total_vizinhos := neighborCount linhas colunas grid i j
    if grid i j = true ∧ (total_vizinhos < 2 ∨ total_vizinhos > 3) then false
    else if grid i j = false ∧ total_vizinhos = 3 then true
    else grid i j

/-- The update of `growing-heart.py`: the same double loop as `gol_v0.py`
but a live cell dies only when `total_vizinhos < 2 or total_vizinhos > 5`
(survival 2–5, birth 3). -/
def GrowingHeartLoop.update (linhas colunas : Nat) (grid : Nat → Nat → Bool) :
    Nat → Nat → Bool :=
  fun i j =>
    let total_vizinhos := neighborCount linhas colunas grid i j
    if grid i j = true ∧ (total_vizinhos < 2 ∨ total_vizinhos > 5) then false
    else if grid i j = false ∧ total_vizinhos = 3 then true
    else grid i j

/-- The update of `heart_v4.py`: double loop where a live cell dies when
`total_vizinhos < 2 or total_vizinhos > 4` (so it survives only with
2, 3 or 4 neighbors), birth with exactly 3. -/
def HeartV4.update (linhas colunas : Nat) (grid : Nat → Nat → Bool) : Nat → Nat → Bool :=
  fun i j =>
    let total_vizinhos := neighborCount linhas colunas grid i j
    if grid i j = true ∧ (total_vizinhos < 2 ∨ total_vizinhos > 4) then false
    else if grid i j = false ∧ total_vizinhos = 3 then true
    else grid i j

/-- The update of `growingheart.py`: convolution-based neighbor counts, then
`new_grid` starts at all zeros and is set to 1 on the survival mask
`(grid == 1) & (2 <= n) & (n <= 5)` and on the birth mask
`(grid == 0) & (n == 3)`. -/
def GrowingHeartConv.update (rows columns : Nat) (grid : Nat → Nat → Bool) :
    Nat → Nat → Bool :=
  fun i j =>
    let total_neighbors := convolve2dWrap rows columns grid i j
    if (grid i j = true ∧ 2 ≤ total_neighbors ∧ total_neighbors ≤ 5) ∨
        (grid i j = false ∧ total_neighbors = 3) then true
    else false

/-- The update of `gol.py`: convolution-based neighbor counts, then
`new_grid` starts at all zeros and is set to 1 on the survival mask
`(grid == 1) & isin(n, survival_rules)` and on the birth mask
`(grid == 0) & isin(n, birth_rules)`. -/
def Gol.update (rows columns : Nat) (survival_rules birth_rules : List Nat)
    (grid : Nat → Nat → Bool) : Nat → Nat → Bool :=
  fun i j =>
    let total_neighbors := convolve2dWrap rows columns grid i j
    if (grid i j = true ∧ total_neighbors ∈ survival_rules) ∨
        (grid i j = false ∧ total_neighbors ∈ birth_rules) then true
    else false

/-- The 6×7 heart pattern stamped by `gol.py` (and the heart scripts). -/
def heart_pattern : List (List Nat) :=
  [[0, 1, 1, 0, 1, 1, 0],
   [1, 1, 1, 1, 1, 1, 1],
   [1, 1, 1, 1, 1, 1, 1],
   [0, 1, 1, 1, 1, 1, 0],
   [0, 0, 1, 1, 1, 0, 0],
   [0, 0, 0, 1, 0, 0, 0]]

/-- The bounds check of `place_pattern` in `gol.py`, instantiated at the 6×7
heart pattern centered at `(rows // 2, columns // 2)`:
`start_row = rows // 2 - 6 // 2` and `start_col = columns // 2 - 7 // 2`
(computed over ℤ, as Python ints), and the pattern fits iff both starts are
nonnegative and `start + extent` stays within the grid shape. -/
def heartFits (rows columns : Nat) : Bool :=
  let start_row : Int := (rows / 2 : Nat) - 3
  let start_col : Int := (columns / 2 : Nat) - 3
  decide (0 ≤ start_row) && decide (0 ≤ start_col) &&
    decide (start_row + 6 ≤ (rows : Int)) && decide (start_col + 7 ≤ (columns : Int))

/-- The grid produced by the `initial_state == 'heart'` branch of
`Game.__init__` in `gol.py`: all zeros, then — only when the bounds check of
`place_pattern` passes — the heart pattern written at the centered block. -/
def heartInitGrid (rows columns : Nat) : Nat → Nat → Bool :=
  fun i j =>
    if heartFits rows columns then
      let start_row : Nat := rows / 2 - 3
      let start_col : Nat := columns / 2 - 3
      if start_row ≤ i ∧ i < start_row + 6 ∧ start_col ≤ j ∧ j < start_col + 7 then
        ((heart_pattern.getD (i - start_row) []).getD (j - start_col) 0) == 1
      else false
    else false

/-- The state held by `Game` in `gol.py` after `__init__`. -/
structure GameState where
  rows : Nat
  columns : Nat
  survival_rules : List Nat
  birth_rules : List Nat
  grid : Nat → Nat → Bool

/-- Default value of the `survival_rules` argument of `Game.__init__` in
`gol.py`. -/
def defaultSurvivalRules : List Nat := [2, 3, 4, 5]

/-- Default value of the `birth_rules` argument of `Game.__init__` in
`gol.py`. -/
def defaultBirthRules : List Nat := [3]

/-- `Game.__init__` of `gol.py`. `numpy` raises `ValueError` when asked for
an array with a negative dimension (modelled as the `.error` branch); for
nonnegative dimensions no failure path exists in the source. The grid of the
`'random'` branch is `np.random.randint(0, 2, (rows, columns))`, modelled by
the `randomGrid` parameter; any `initial_state` other than `'heart'` and
`'random'` falls back to an all-zero grid (plus a printed warning). -/
def gameInit (rows columns : Int) (survival_rules birth_rules : List Nat)
    (initial_state : String) (randomGrid : Nat → Nat → Bool) :
    Except String GameState :=
  if rows < 0 ∨ columns < 0 then
    .error "ValueError: negative dimensions are not allowed"
  else
    .ok { rows := rows.toNat
          columns := columns.toNat
          survival_rules := survival_rules
          birth_rules := birth_rules
          grid :=
            if initial_state = "heart" then heartInitGrid rows.toNat columns.toNat
            else if initial_state = "random" then randomGrid
            else fun _ _ => false }

/-- The eight neighbor offsets of the toroidal 3×3 neighborhood, in the
order in which the double-loop scripts sum them. -/
def neighborOffsets : List (Int × Int) :=
  [(-1, -1), (-1, 0), (-1, 1), (0, -1), (0, 1), (1, -1), (1, 0), (1, 1)]

/-- The eight grid positions read by the neighbor count of cell `(i, j)`:
`((i + di) mod linhas, (j + dj) mod colunas)` for the eight offsets. -/
def neighborPositions (linhas colunas : Nat) (i j : Nat) : List (Nat × Nat) :=
  neighborOffsets.map fun d => (idx linhas ((i : Int) + d.1), idx colunas ((j : Int) + d.2))

namespace Saw

/-- `Game.__into_to_coord` of `examples/saw_santos2023.py`: flat position to
`(row, column)`. -/
def into_to_coord (colunas pos : Nat) : Nat × Nat := (pos / colunas, pos % colunas)

/-- The neighbor positions collected by `Game.__alive_nbs` of
`examples/saw_santos2023.py`: the 3×3 block around `(x, y)` with
out-of-bounds rows/columns skipped (bounded grid, no wraparound) and the
center skipped. -/
def vizinhos (linhas colunas : Nat) (x y : Nat) : List (Nat × Nat) :=
  ((([(x : Int) - 1, (x : Int), (x : Int) + 1]).flatMap fun linha =>
      ([(y : Int) - 1, (y : Int), (y : Int) + 1]).map fun coluna => (linha, coluna)).filterMap
    fun lc =>
      if lc.1 < 0 ∨ lc.1 ≥ (linhas : Int) ∨ lc.2 ≥ (colunas : Int) ∨ lc.2 < 0 then none
      else if lc = ((x : Int), (y : Int)) then none
      else some (lc.1.toNat, lc.2.toNat))

/-- `Game.__alive_nbs` of `examples/saw_santos2023.py`: count of live cells
among the in-bounds neighbors of flat position `pos`, read from `celulas`. -/
def alive_nbs (linhas colunas : Nat) (celulas : List Bool) (pos : Nat) : Nat :=
  let pc := into_to_coord colunas pos
  ((vizinhos linhas colunas pc.1 pc.2).map fun v => v.1 * colunas + v.2).countP
    fun p => celulas.getD p false

/-- `Game.update` of `examples/saw_santos2023.py`. `new_grid` starts as a
copy of `self.celulas`; inside the per-cell loop the code reassigns
`self.celulas = new_grid`, so from the second cell on, `__alive_nbs` reads
the partially updated `new_grid` (for the first cell it reads the original
list, whose contents still coincide with the fresh copy). The loop variable
`val` comes from `enumerate(self.celulas)`, an iterator over the original
list, hence the pre-update value. -/
def update (linhas colunas : Nat) (celulas : List Bool) : List Bool :=
  (List.range celulas.length).foldl
    (fun new_grid pos =>
      let val := celulas.getD pos false
      let alive_n := alive_nbs linhas colunas new_grid pos
      if val then
        if alive_n < 2 ∨ alive_n > 3 then new_grid.set pos false else new_grid
      else
        if alive_n = 3 then new_grid.set pos true else new_grid)
    celulas

/-- Modelled from the spec (the comparison semantics of the claim): every
cell's next state computed from the pre-update snapshot, with the same
bounded-grid neighbor count and classic rules as `saw_santos2023.py`. -/
def snapshotUpdate (linhas colunas : Nat) (celulas : List Bool) : List Bool :=
  (List.range celulas.length).map fun pos =>
    let val := celulas.getD pos false
    let alive_n := alive_nbs linhas colunas celulas pos
    if val then
      if alive_n < 2 ∨ alive_n > 3 then false else true
    else
      if alive_n = 3 then true else false

end Saw

/-- The all-dead grid (used to stand in for the random grid where the
random branch is not taken). -/
def deadGrid : Nat → Nat → Bool := fun _ _ => false

/-- 5×5 horizontal tri-cell: ALIVE at (2,1), (2,2), (2,3). -/
def blinkerH : Nat → Nat → Bool := fun i j => decide (i = 2 ∧ (j = 1 ∨ j = 2 ∨ j = 3))

/-- 5×5 vertical tri-cell: ALIVE at (1,2), (2,2), (3,2). -/
def blinkerV : Nat → Nat → Bool := fun i j => decide (j = 2 ∧ (i = 1 ∨ i = 2 ∨ i = 3))

/-- Concrete grid in which the live cell (1,1) has exactly 4 live neighbors. -/
def gridFour : Nat → Nat → Bool :=
  fun i j => decide ((i, j) ∈ ([(0, 0), (0, 1), (0, 2), (1, 0), (1, 1)] : List (Nat × Nat)))

/-- Concrete grid in which the live cell (1,1) has exactly 5 live neighbors
on a 3×3 torus. -/
def gridFive : Nat → Nat → Bool :=
  fun i j =>
    decide ((i, j) ∈ ([(1, 1), (0, 0), (0, 1), (0, 2), (1, 0), (2, 0)] : List (Nat × Nat)))

theorem idx_zero (n : Nat) : idx n 0 = 0 := by
  simp [idx]

theorem idx_one (n : Nat) (h : 2 ≤ n) : idx n 1 = 1 := by
  unfold idx
  rw [Int.emod_eq_of_lt (by omega) (by omega)]
  rfl

theorem idx_neg_one (n : Nat) (h : 1 ≤ n) : idx n (-1) = n - 1 := by
  unfold idx
  have h3 : ((-1 : Int) + (n : Int) * 1) % (n : Int) = (-1 : Int) % (n : Int) :=
    Int.add_mul_emod_self_left (-1) (n : Int) 1
  rw [← h3, Int.emod_eq_of_lt (by omega) (by omega)]
  omega

theorem neighborCount_eq_countP (linhas colunas : Nat) (grid : Nat → Nat → Bool) (i j : Nat) :
    neighborCount linhas colunas grid i j =
      (neighborPositions linhas colunas i j).countP fun p => grid p.1 p.2 := by
  have hb : ∀ b : Bool, b.toNat = if b = true then 1 else 0 := by
    intro b; cases b <;> rfl
  unfold neighborCount neighborPositions neighborOffsets
  simp [List.countP_cons, hb, sub_eq_add_neg]
  ring_nf

theorem neighborPositions_zero_zero (r c : Nat) (hr : 2 ≤ r) (hc : 2 ≤ c) :
    (neighborPositions r c 0 0).toFinset =
      ({(r - 1, c - 1), (r - 1, 0), (r - 1, 1), (0, c - 1), (0, 1),
        (1, c - 1), (1, 0), (1, 1)} : Finset (Nat × Nat)) := by
  unfold neighborPositions neighborOffsets
  simp [idx_zero, idx_one r (by omega), idx_one c (by omega),
    idx_neg_one r (by omega), idx_neg_one c (by omega)]

/-- C1: for every grid and every rule lists with values in [0,8], after one
`Game.update` of `gol.py` a cell that was ALIVE is ALIVE afterwards iff its
pre-update neighbor count is in `survival_rules`, and a cell that was DEAD
is ALIVE afterwards iff its pre-update neighbor count is in `birth_rules`
(cells are binary, so every other cell is DEAD). -/
theorem gol_update_rule_characterization (rows columns : Nat)
    (survival_rules birth_rules : List Nat)
    (hs : ∀ s ∈ survival_rules, s ≤ 8) (hb : ∀ b ∈ birth_rules, b ≤ 8)
    (grid : Nat → Nat → Bool) (i j : Nat) :
    (grid i j = true →
      (Gol.update rows columns survival_rules birth_rules grid i j = true ↔
        neighborCount rows columns grid i j ∈ survival_rules)) ∧
    (grid i j = false →
      (Gol.update rows columns survival_rules birth_rules grid i j = true ↔
        neighborCount rows columns grid i j ∈ birth_rules)) := by
  unfold Gol.update
  rw [convolve2dWrap_eq_neighborCount]
  constructor <;> intro h <;> simp [h]

/-- Witness for C1 at a concrete input: rules survival=[2,3], birth=[3]
(values in [0,8]), the grid `gridFour` and cell (1,1). -/
theorem gol_update_rule_characterization_witness :
    (gridFour 1 1 = true →
      (Gol.update 5 5 [2, 3] [3] gridFour 1 1 = true ↔
        neighborCount 5 5 gridFour 1 1 ∈ [2, 3])) ∧
    (gridFour 1 1 = false →
      (Gol.update 5 5 [2, 3] [3] gridFour 1 1 = true ↔
        neighborCount 5 5 gridFour 1 1 ∈ [3])) :=
  gol_update_rule_characterization 5 5 [2, 3] [3] (by decide) (by decide) gridFour 1 1

/-- C2 fails as stated at the 1×1 grid: there the eight toroidal neighbor
positions of (0,0) all coincide with (0,0), while the claimed neighbor set
`(r-1,c-1), (r-1,0), (r-1,1), (0,c-1), (0,1), (1,c-1), (1,0), (1,1)`
instantiated at r = c = 1 contains (0,1), (1,0) and (1,1). -/
theorem neighborPositions_one_one_ne_claimed :
    ¬ ((neighborPositions 1 1 0 0).toFinset =
      ({(0, 0), (0, 0), (0, 1), (0, 0), (0, 1), (1, 0), (1, 0), (1, 1)} :
        Finset (Nat × Nat))) := by
  decide

/-- C2 (amended with r, c ≥ 2): the neighbor count used by `update()` is
the number of ALIVE cells among the eight toroidal positions
`(i±1 mod r, j±1 mod c)` (counted with multiplicity, in source order), and
the set of neighbor positions of cell (0,0) is exactly
`(r-1,c-1), (r-1,0), (r-1,1), (0,c-1), (0,1), (1,c-1), (1,0), (1,1)`. -/
theorem toroidal_neighbor_structure (r c : Nat) (hr : 2 ≤ r) (hc : 2 ≤ c)
    (grid : Nat → Nat → Bool) (i j : Nat) :
    convolve2dWrap r c grid i j =
      ((neighborPositions r c i j).countP fun p => grid p.1 p.2) ∧
    (neighborPositions r c 0 0).toFinset =
      ({(r - 1, c - 1), (r - 1, 0), (r - 1, 1), (0, c - 1), (0, 1),
        (1, c - 1), (1, 0), (1, 1)} : Finset (Nat × Nat)) :=
  ⟨(convolve2dWrap_eq_neighborCount r c grid i j).trans
    (neighborCount_eq_countP r c grid i j),
   neighborPositions_zero_zero r c hr hc⟩

/-- Witness for the amended C2 at r = c = 5 with the grid `gridFour`. -/
theorem toroidal_neighbor_structure_witness :
    convolve2dWrap 5 5 gridFour 1 1 =
      ((neighborPositions 5 5 1 1).countP fun p => gridFour p.1 p.2) ∧
    (neighborPositions 5 5 0 0).toFinset =
      ({(4, 4), (4, 0), (4, 1), (0, 4), (0, 1), (1, 4), (1, 0), (1, 1)} :
        Finset (Nat × Nat)) :=
  toroidal_neighbor_structure 5 5 (by decide) (by decide) gridFour 1 1

/-- C3: on every grid and every cell, one convolution-based update of
`growingheart.py` agrees with one double-loop update of `growing-heart.py`
(both use survival 2–5, birth 3). -/
theorem growingheart_conv_eq_double_loop (rows columns : Nat)
    (grid : Nat → Nat → Bool) (i j : Nat) :
    GrowingHeartConv.update rows columns grid i j =
      GrowingHeartLoop.update rows columns grid i j := by
  unfold GrowingHeartConv.update GrowingHeartLoop.update
  rw [convolve2dWrap_eq_neighborCount]
  rcases hg : grid i j <;> simp [hg, ← decide_not, Nat.not_lt]

/-- C4 fails as stated: the default rule arguments of `Game.__init__` in
`gol.py` are survival=[2,3,4,5], birth=[3], not classic Life; on the grid
`gridFour` the live cell (1,1) has 4 neighbors, survives under the default
rules and would die under classic survival=[2,3]. -/
theorem default_rules_not_classic :
    defaultSurvivalRules = [2, 3, 4, 5] ∧
    Gol.update 5 5 defaultSurvivalRules defaultBirthRules gridFour 1 1 = true ∧
    Gol.update 5 5 [2, 3] [3] gridFour 1 1 = false := by
  decide

/-- C4 (amended): when the engine is constructed without explicit rules it
uses survival=[2,3,4,5], birth=[3] (the "growth" variant): a live cell
survives iff its neighbor count is 2, 3, 4 or 5 and a dead cell is born iff
its neighbor count is 3. -/
theorem default_rules_growth_variant (rows columns : Nat)
    (grid : Nat → Nat → Bool) (i j : Nat) :
    defaultSurvivalRules = [2, 3, 4, 5] ∧ defaultBirthRules = [3] ∧
    (grid i j = true →
      (Gol.update rows columns defaultSurvivalRules defaultBirthRules grid i j = true ↔
        (neighborCount rows columns grid i j = 2 ∨ neighborCount rows columns grid i j = 3 ∨
         neighborCount rows columns grid i j = 4 ∨
         neighborCount rows columns grid i j = 5))) ∧
    (grid i j = false →
      (Gol.update rows columns defaultSurvivalRules defaultBirthRules grid i j = true ↔
        neighborCount rows columns grid i j = 3)) := by
  refine ⟨rfl, rfl, ?_, ?_⟩ <;> intro h <;>
    simp [Gol.update, convolve2dWrap_eq_neighborCount, defaultSurvivalRules,
      defaultBirthRules, h]

/-- Witness for the amended C4 at the grid `gridFour` and cell (1,1). -/
theorem default_rules_growth_variant_witness :
    Gol.update 5 5 defaultSurvivalRules defaultBirthRules gridFour 1 1 = true :=
  ((default_rules_growth_variant 5 5 gridFour 1 1).2.2.1 (by decide)).mpr (by decide)

theorem heartFits_zero_rows (columns : Nat) : heartFits 0 columns = false := by
  simp [heartFits]

/-- C5 fails as stated: `Game(0, 5)` in `gol.py` performs no dimension
validation and succeeds (no `InvalidDimension` exists anywhere in the
repository), producing an engine instead of reporting an error. -/
theorem construction_rows_zero_succeeds :
    (gameInit 0 5 defaultSurvivalRules defaultBirthRules "heart" deadGrid).isOk = true := by
  decide

/-- C5 (amended): construction does not validate dimensions. It fails (with
numpy's `ValueError`) exactly when rows < 0 or columns < 0; in particular
`new(rows=0, ...)` succeeds and yields an engine whose grid is entirely
DEAD. -/
theorem construction_failure_characterization (rows columns : Int)
    (survival_rules birth_rules : List Nat) (initial_state : String)
    (randomGrid : Nat → Nat → Bool) :
    ((gameInit rows columns survival_rules birth_rules initial_state randomGrid).isOk
        = true ↔ (0 ≤ rows ∧ 0 ≤ columns)) ∧
    (∀ gs, gameInit 0 columns survival_rules birth_rules "heart" randomGrid = .ok gs →
      ∀ i j, gs.grid i j = false) := by
  constructor
  · by_cases h : rows < 0 ∨ columns < 0
    · simp [gameInit, h, Except.isOk, Except.toBool]
      omega
    · simp [gameInit, h, Except.isOk, Except.toBool]
      omega
  · intro gs hgs i j
    by_cases hc : columns < 0
    · simp [gameInit, hc] at hgs
    · simp [gameInit, hc] at hgs
      rw [← hgs]
      simp [heartInitGrid, heartFits_zero_rows]

/-- Witness for the amended C5: construction succeeds at rows = 0,
columns = 7. -/
theorem construction_failure_characterization_witness :
    (gameInit 0 7 [2, 3] [3] "random" deadGrid).isOk = true :=
  (construction_failure_characterization 0 7 [2, 3] [3] "random" deadGrid).1.mpr
    (by decide)

/-- C6: on a 5×5 grid under the classic rules of `gol_v0.py`, the
horizontal tri-cell at (2,1), (2,2), (2,3) becomes the vertical tri-cell at
(1,2), (2,2), (3,2) after one update, and returns to the original after a
second update (period-2 oscillation). -/
theorem blinker_period_two :
    (∀ i < 5, ∀ j < 5, GolV0.update 5 5 blinkerH i j = blinkerV i j) ∧
    (∀ i < 5, ∀ j < 5, GolV0.update 5 5 (GolV0.update 5 5 blinkerH) i j = blinkerH i j) := by
  decide

/-- Witness for C6 at the cell (1,2), born in the first step and dying back
in the second. -/
theorem blinker_period_two_witness :
    GolV0.update 5 5 blinkerH 1 2 = blinkerV 1 2 ∧
    GolV0.update 5 5 (GolV0.update 5 5 blinkerH) 1 2 = blinkerH 1 2 :=
  ⟨blinker_period_two.1 1 (by decide) 2 (by decide),
   blinker_period_two.2 1 (by decide) 2 (by decide)⟩

/-- C7: whenever the centered 6×7 heart pattern does not pass the bounds
check of `place_pattern`, construction with `initial_state='heart'` raises
no error and the resulting grid is entirely DEAD. -/
theorem heart_no_fit_silent_noop (rows columns : Nat)
    (h : heartFits rows columns = false)
    (survival_rules birth_rules : List Nat) (randomGrid : Nat → Nat → Bool) :
    ∃ gs, gameInit (rows : Int) (columns : Int) survival_rules birth_rules "heart" randomGrid
        = .ok gs ∧ ∀ i j, gs.grid i j = false := by
  refine ⟨{ rows := rows, columns := columns, survival_rules := survival_rules,
            birth_rules := birth_rules, grid := heartInitGrid rows columns }, ?_, ?_⟩
  · unfold gameInit
    rw [if_neg (by omega)]
    simp
  · intro i j
    simp [heartInitGrid, h]

/-- Witness for C7: the heart does not fit in a 5×5 grid, and the engine is
built with an all-dead grid. -/
theorem heart_no_fit_silent_noop_witness :
    ∃ gs, gameInit (5 : Int) (5 : Int) defaultSurvivalRules defaultBirthRules "heart" deadGrid
        = .ok gs ∧ ∀ i j, gs.grid i j = false :=
  heart_no_fit_silent_noop 5 5 (by decide) defaultSurvivalRules defaultBirthRules deadGrid

/-- C8: in `saw_santos2023.py`, `update()` reassigns `self.celulas` to the
partially written `new_grid` inside the per-cell loop, so later neighbor
counts observe same-generation writes: on the 1×3 all-alive grid one
`update()` yields a grid different from the one computed cell-by-cell from
the pre-update snapshot under the same bounded-grid classic rules. -/
theorem saw_sequential_differs_from_snapshot :
    ∃ (linhas colunas : Nat) (celulas : List Bool),
      Saw.update linhas colunas celulas ≠ Saw.snapshotUpdate linhas colunas celulas :=
  ⟨1, 3, [true, true, true], by decide⟩

/-- C9: in `heart_v4.py` a live cell with exactly 5 live neighbors dies
(the code keeps a live cell only with 2–4 neighbors, despite the comment
that announces 2–5), whereas under `growing-heart.py` the same cell
survives. -/
theorem heartV4_five_neighbors_dies (linhas colunas : Nat)
    (grid : Nat → Nat → Bool) (i j : Nat)
    (halive : grid i j = true) (h5 : neighborCount linhas colunas grid i j = 5) :
    HeartV4.update linhas colunas grid i j = false ∧
    GrowingHeartLoop.update linhas colunas grid i j = true := by
  unfold HeartV4.update GrowingHeartLoop.update
  rw [h5]
  simp [halive]

/-- Witness for C9: on the 3×3 torus `gridFive`, the live cell (1,1) has
exactly 5 live neighbors; it dies under `heart_v4.py` and survives under
`growing-heart.py`. -/
theorem heartV4_five_neighbors_dies_witness :
    HeartV4.update 3 3 gridFive 1 1 = false ∧
    GrowingHeartLoop.update 3 3 gridFive 1 1 = true :=
  heartV4_five_neighbors_dies 3 3 gridFive 1 1 (by decide) (by decide)

/-- C10: constructing `Game` in `gol.py` with any `initial_state` other
than 'heart' and 'random' raises no error: it succeeds and produces an
engine of the requested shape whose grid is entirely DEAD. -/
theorem invalid_initial_state_empty_grid (rows columns : Int)
    (hr : 0 ≤ rows) (hc : 0 ≤ columns)
    (survival_rules birth_rules : List Nat) (initial_state : String)
    (randomGrid : Nat → Nat → Bool)
    (h1 : initial_state ≠ "heart") (h2 : initial_state ≠ "random") :
    ∃ gs, gameInit rows columns survival_rules birth_rules initial_state randomGrid
        = .ok gs ∧ gs.rows = rows.toNat ∧ gs.columns = columns.toNat ∧
      ∀ i j, gs.grid i j = false := by
  refine ⟨{ rows := rows.toNat, columns := columns.toNat,
            survival_rules := survival_rules, birth_rules := birth_rules,
            grid := fun _ _ => false }, ?_, rfl, rfl, fun i j => rfl⟩
  unfold gameInit
  rw [if_neg (by omega)]
  simp [h1, h2]

/-- Witness for C10 at `initial_state = 'blinker'` on a 3×4 grid. -/
theorem invalid_initial_state_empty_grid_witness :
    ∃ gs, gameInit 3 4 [2, 3] [3] "blinker" deadGrid
        = .ok gs ∧ gs.rows = (3 : Int).toNat ∧ gs.columns = (4 : Int).toNat ∧
      ∀ i j, gs.grid i j = false :=
  invalid_initial_state_empty_grid 3 4 (by decide) (by decide) [2, 3] [3] "blinker"
    deadGrid (by decide) (by decide)
